import Mathlib

/-
Verification of the satellite-overlay core of RescueDecisionSystems.

Shallow embedding of:
  * flask_app/app/sat_compute_footprint.py   (horizon_radius_km, annotate_footprint_radius)
  * flask_app/app/sat_fetch_tle.py           (load_sat_reference, load_tle_snapshot,
                                              TLE-epoch parsing)
  * flask_app/app/sat_compute_groundtrack.py (compute_subpoint_at, compute_short_track,
                                              find_next_pass_marker)

flask_app/app/sat_pipeline.py is not embedded: the module has a syntax error and
never imports (see the note at its section marker below).

Modelling conventions:
  * Python floats are modelled as exact rationals (Rat); float NaN / missing values are
    modelled as Option.none.  Timestamps are rationals: seconds since 0001-01-01T00:00Z
    in the proleptic Gregorian calendar (the calendar used by Python's datetime).
  * Python exceptions are modelled by Except PyErr; a function that cannot raise is total.
  * Transcendental float kernels that the groundtrack code only consumes as opaque
    numbers (skyfield propagation results, observer elevation) enter as components of
    an explicit environment (SatEnv); their control-flow behaviour (raising, NaN-ness)
    is modelled faithfully.  The exact-real specification of horizon_radius_km itself
    is embedded separately over ℝ.
  * pandas DataFrames are modelled as lists of records.
-/

set_option maxRecDepth 2000

deriving instance DecidableEq for Except

namespace RDS

attribute [local semireducible] Rat.add Rat.mul Rat.sub Rat.inv Rat.ofScientific

/-- Python exception kinds that the embedded code can raise. -/
inductive PyErr where
  | fileNotFound
  | unicodeDecode
  | valueError
  | typeError
  deriving Repr, DecidableEq

/-- Python float modulo for a positive modulus: result lies in [0, m). -/
def pymod (a m : Rat) : Rat := a - m * ((Rat.floor (a / m) : Int) : Rat)

/-- Longitude wrap used throughout the source: ((x + 180) % 360) - 180, landing in
[-180, 180). -/
def wrap180 (x : Rat) : Rat := pymod (x + 180) 360 - 180

/-- Python string slice s[a:b] (character indices, out-of-range truncates). -/
def strSlice (s : String) (a b : Nat) : String := String.mk ((s.toList.drop a).take (b - a))

/-- Whitespace stripping on character lists (Python str.strip()). -/
def trimChars (cs : List Char) : List Char :=
  ((cs.dropWhile Char.isWhitespace).reverse.dropWhile Char.isWhitespace).reverse

/-- Python str.strip() over the character-list view of a string. -/
def strTrim (s : String) : String := String.mk (trimChars s.toList)

/-- Python str.upper() (the identifiers this code uppercases are ASCII). -/
def strUpper (s : String) : String := String.mk (s.toList.map Char.toUpper)

/-- Python str.lower() (the identifiers this code lowercases are ASCII). -/
def strLower (s : String) : String := String.mk (s.toList.map Char.toLower)

/-- Python str.startswith. -/
def strStartsWith (s pat : String) : Bool := pat.toList.isPrefixOf s.toList

/-- Value of a digit string (caller has checked all characters are digits). -/
def digitsVal (cs : List Char) : Nat := cs.foldl (fun n c => 10 * n + (c.toNat - '0'.toNat)) 0

/-- Python int(str) on a stripped character list: optional sign and digits. -/
def pyIntOfChars : List Char → Option Int
  | '-' :: ds => if ds ≠ [] ∧ ds.all Char.isDigit then some (-(digitsVal ds : Int)) else none
  | '+' :: ds => if ds ≠ [] ∧ ds.all Char.isDigit then some ((digitsVal ds : Int)) else none
  | ds => if ds ≠ [] ∧ ds.all Char.isDigit then some ((digitsVal ds : Int)) else none

/-- Python int(str): strips whitespace, accepts an optional sign and digits. -/
def pyInt? (s : String) : Option Int := pyIntOfChars (trimChars s.toList)

/-- Python float(str) restricted to the decimal forms that occur in TLE epoch fields:
optional sign, digits with at most one decimal point ("001.5", "1.", ".5").
Exponent forms, inf and nan are not modelled (they never occur in this data). -/
def pyFloat? (s : String) : Option Rat :=
  let cs := trimChars s.toList
  let signed : Int × List Char :=
    match cs with
    | '-' :: rest => (-1, rest)
    | '+' :: rest => (1, rest)
    | rest => (1, rest)
  match signed.2.splitOn '.' with
  | [w] =>
    if w ≠ [] ∧ w.all Char.isDigit then some ((signed.1 : Rat) * (digitsVal w : Nat))
    else none
  | [w, f] =>
    if (w ≠ [] ∨ f ≠ []) ∧ w.all Char.isDigit ∧ f.all Char.isDigit then
      some ((signed.1 : Rat) * ((digitsVal w : Nat) + (digitsVal f : Nat) / (10 : Rat) ^ f.length))
    else none
  | _ => none

/-- Python `a or b` on optional strings: None and the empty string are falsy. -/
def pyOrStr (x y : Option String) : Option String :=
  match x with
  | some s => if s = "" then y else some s
  | none => y

/-- Python str() of an optional string: str(None) is the literal "None". -/
def pyStrOfOpt (x : Option String) : String :=
  match x with
  | some s => s
  | none => "None"

/-- Contiguous-substring test over character lists (pandas str.contains with a
metacharacter-free pattern). -/
def charsContain (pat : List Char) : List Char → Bool
  | [] => pat.isEmpty
  | c :: rest => pat.isPrefixOf (c :: rest) || charsContain pat rest

/-- String containment test used to model pandas Series.str.contains. -/
def containsSub (hay pat : String) : Bool := charsContain pat.toList hay.toList

/-- Days before January 1 of a given year in the proleptic Gregorian calendar
(Python datetime's internal day count; day 0 is 0001-01-01). -/
def daysBeforeYear (y : Int) : Int :=
  365 * (y - 1) + (y - 1).fdiv 4 - (y - 1).fdiv 100 + (y - 1).fdiv 400

/-- Index of the first maximum of a list (np.argmax), auxiliary accumulator. -/
def argmaxAux (best_i : Nat) (best_v : Rat) (i : Nat) : List Rat → Nat
  | [] => best_i
  | v :: rest => if best_v < v then argmaxAux i v (i + 1) rest else argmaxAux best_i best_v (i + 1) rest

/-- Index of the first maximum of a list (np.argmax); 0 on the empty list. -/
def argmaxList : List Rat → Nat
  | [] => 0
  | v :: rest => argmaxAux 0 v 1 rest

/- ===================== sat_compute_footprint.py ===================== -/

/-- Earth mean radius used by the source (RE_KM). -/
def RE_KM : ℝ := 6371

/-- Embedding of horizon_radius_km from sat_compute_footprint.py over exact reals:
r = Re * arccos(Re / (Re + h)).  The Option models the float NaN channel: the input
is none when float(altitude_km) is non-finite or not convertible, and the result is
none exactly when the source returns NaN (non-finite input or altitude <= 0). -/
noncomputable def horizon_radius_km (altitude_km : Option ℝ) : Option ℝ :=
  match altitude_km with
  | none => none
  | some h => if h ≤ 0 then none else some (RE_KM * Real.arccos (RE_KM / (RE_KM + h)))

/- ===================== sat_fetch_tle.py : catalog ===================== -/

/-- One row of the SARSAT baseline reference CSV, with norad_id already coerced by
pd.to_numeric(errors="coerce").astype("Int64") (none = missing/unparsable). -/
structure CatalogRow where
  type : String
  designator : String
  common_name : String
  norad_id : Option Int
  intl_designator : String
  deriving Repr, DecidableEq

/-- A raw CSV read result: the column list (for the required-column check) plus the
typed rows. -/
structure RawCsv where
  cols : List String
  rows : List CatalogRow
  deriving Repr, DecidableEq

/-- Filesystem/reader state seen by load_sat_reference: whether the absolute baseline
path exists, and the outcome of reading each candidate file under each encoding. -/
structure Fs where
  baselineAbsExists : Bool
  readAbsUtf8 : Except PyErr RawCsv
  readAbsCp1252 : Except PyErr RawCsv
  readRelUtf8 : Except PyErr RawCsv
  readRelCp1252 : Except PyErr RawCsv

/-- The source's try/except UnicodeDecodeError fallback around pd.read_csv: retry with
cp1252 only on a unicode error; any other error propagates. -/
def readCsvWithEncodingFallback (first second : Except PyErr RawCsv) : Except PyErr RawCsv :=
  match first with
  | .error .unicodeDecode => second
  | r => r

/-- Columns load_sat_reference requires in the baseline CSV. -/
def REQUIRED_BASELINE_COLS : List String :=
  ["type", "designator", "common_name", "norad_id", "intl_designator"]

/-- The read performed by load_sat_reference: the absolute baseline path when it
exists, else the relative path, each with the encoding fallback. -/
def baselineRead (fs : Fs) : Except PyErr RawCsv :=
  if fs.baselineAbsExists then readCsvWithEncodingFallback fs.readAbsUtf8 fs.readAbsCp1252
  else readCsvWithEncodingFallback fs.readRelUtf8 fs.readRelCp1252

/-- Embedding of load_sat_reference (sat_fetch_tle.py).  Reads the baseline CSV and
checks the required columns, raising ValueError when one is missing.  Read errors
(e.g. FileNotFoundError when no baseline CSV exists) propagate to the caller; the
function never consults DEFAULT_REFERENCE_ROWS or create_default_sat_reference_csv. -/
def load_sat_reference (fs : Fs) : Except PyErr (List CatalogRow) :=
  match baselineRead fs with
  | .error e => .error e
  | .ok csv =>
    if REQUIRED_BASELINE_COLS.all (fun c => csv.cols.contains c) then .ok csv.rows
    else .error .valueError

/-- Column schema of the CSV written by create_default_sat_reference_csv
(sat_fetch_tle.py): note it is the old schema, disjoint from the loader's
REQUIRED_BASELINE_COLS apart from "type". -/
def DEFAULT_REFERENCE_COLS : List String :=
  ["sat_id", "name", "type", "owner", "constellation", "altitude_km",
   "footprint_radius_km", "is_active"]

/-- The DEFAULT_REFERENCE_ROWS seed data written by create_default_sat_reference_csv:
(sat_id, name, type, owner, constellation, altitude_km, footprint_radius_km, is_active). -/
def DEFAULT_REFERENCE_ROWS :
    List (String × String × String × String × String × Rat × Rat × Nat) :=
  [("NOAA-15", "NOAA-15", "LEO", "USA", "LEOSAR", 850, 2500, 1),
   ("NOAA-18", "NOAA-18", "LEO", "USA", "LEOSAR", 850, 2500, 1),
   ("NOAA-19", "NOAA-19", "LEO", "USA", "LEOSAR", 850, 2500, 1),
   ("METOP-A", "MetOp-A", "LEO", "EU", "LEOSAR", 830, 2500, 1),
   ("METOP-B", "MetOp-B", "LEO", "EU", "LEOSAR", 830, 2500, 1),
   ("METOP-C", "MetOp-C", "LEO", "EU", "LEOSAR", 830, 2500, 1)]

/-- Content of the CSV that create_default_sat_reference_csv would write (columns and
rows); no function in the module ever calls it. -/
def create_default_sat_reference_csv :
    List String × List (String × String × String × String × String × Rat × Rat × Nat) :=
  (DEFAULT_REFERENCE_COLS, DEFAULT_REFERENCE_ROWS)

/- ===================== sat_fetch_tle.py : TLE snapshot ===================== -/

/-- One TLE record as produced by load_tle_snapshot (the dicts appended to rows). -/
structure TleRow where
  name : String
  norad_id : Option Int
  tle_line1 : String
  tle_line2 : String
  epoch_utc : Option Rat
  provider : String
  lookup_method : String
  cache_hit : Bool
  deriving Repr, DecidableEq

/-- Upper bound (in days) of Python's datetime range: dates run from year 1 to 9999. -/
def PY_DATETIME_MAX_DAYS : Rat := ((daysBeforeYear 10000 : Int) : Rat)

/-- Core of the epoch computation inside load_tle_snapshot: two-digit year yy maps to
2000+yy when yy < 57 else 1900+yy, and the timestamp is
datetime(year,1,1,UTC) + timedelta(days = day_of_year - 1), i.e. seconds =
86400 * (daysBeforeYear year + (day_of_year - 1)).  The guard models the
OverflowError datetime raises outside years 1..9999 (caught by the source's
try/except, so modelled as a parse failure). -/
def tleEpochCore (yy : Int) (day_of_year : Rat) : Option Rat :=
  let year := if yy < 57 then 2000 + yy else 1900 + yy
  let days := ((daysBeforeYear year : Int) : Rat) + (day_of_year - 1)
  if days < 0 ∨ PY_DATETIME_MAX_DAYS ≤ days then none
  else some (86400 * days)

/-- Epoch parsing from TLE line 1 as done inside load_tle_snapshot: take characters
[18:32], parse the first two as int and the rest as float; any failure yields none
(the source leaves epoch_utc as None via try/except pass). -/
def tleEpochFromLine1 (line1 : String) : Option Rat :=
  let epoch_str := strSlice line1 18 32
  match pyInt? (strSlice epoch_str 0 2), pyFloat? (String.mk (epoch_str.toList.drop 2)) with
  | some yy, some doy => tleEpochCore yy doy
  | _, _ => none

/-- An HTTP response: status code and the raw text, pre-split into lines. -/
structure HttpResp where
  status : Nat
  textLines : List String
  deriving Repr

/-- The line cleanup applied to the response body:
[l.strip() for l in resp.text.splitlines() if l.strip()]. -/
def respLines (r : HttpResp) : List String :=
  (r.textLines.map strTrim).filter (fun l => l ≠ "")

/-- The single celestrak endpoint queried per catalog number. -/
def catnrUrl (norad_id : Int) : String :=
  "https://celestrak.org/NORAD/elements/gp.php?CATNR=" ++ toString norad_id ++ "&FORMAT=TLE"

/-- The single celestrak endpoint queried per group. -/
def groupUrl (g : String) : String :=
  "https://celestrak.org/NORAD/elements/gp.php?GROUP=" ++ strUpper g ++ "&FORMAT=TLE"

/-- Group inference from a designator-style string (first letter, uppercased). -/
def inferGroup (s : String) : Option String :=
  let s_up := strUpper s
  if strStartsWith s_up "E" then some "galileo"
  else if strStartsWith s_up "R" then some "glonass"
  else if strStartsWith s_up "B" ∨ strStartsWith s_up "C" then some "beidou"
  else none

/-- The input-classification loop of load_tle_snapshot: each entry parsed as an int
becomes a catalog number; otherwise a group may be inferred from its first letter.
Groups carry Python set semantics (deduplicated; iteration order is unspecified in
Python and fixed here as first-occurrence order). -/
def parseIdsGroups : List String → List Int × List String
  | [] => ([], [])
  | s :: rest =>
    let acc := parseIdsGroups rest
    match pyInt? s with
    | some i => (i :: acc.1, acc.2)
    | none =>
      match inferGroup s with
      | some g => (acc.1, if acc.2.contains g then acc.2 else g :: acc.2)
      | none => acc

/-- Mutable state threaded through load_tle_snapshot: the module-level TLE caches,
the rows accumulated for the result frame, and the log of HTTP requests issued
(one entry per requests.get call; used to reason about attempt counts). -/
structure TleFetchState where
  cacheCatnr : List (Int × TleRow)
  cacheGroup : List (String × List TleRow)
  rows : List TleRow
  requests : List String
  deriving Repr

/-- Lookup in the CATNR cache. -/
def cacheLookupCatnr (c : List (Int × TleRow)) (n : Int) : Option TleRow :=
  (c.find? (fun p => p.1 = n)).map (fun p => p.2)

/-- The TLE record built from a CATNR response with at least three cleaned lines. -/
def mkCatnrRow (norad_id : Int) (lines : List String) : TleRow :=
  { name := lines.getD 0 "", norad_id := some norad_id,
    tle_line1 := lines.getD 1 "", tle_line2 := lines.getD 2 "",
    epoch_utc := tleEpochFromLine1 (lines.getD 1 ""),
    provider := "celestrak", lookup_method := "catnr", cache_hit := false }

/-- One iteration of the CATNR loop of load_tle_snapshot: serve from cache, else make
exactly one HTTP request; a network exception, a non-200 status or fewer than three
lines all lead to silently skipping this satellite (no retry, no exception). -/
def fetchCatnrStep (http : String → Except Unit HttpResp)
    (st : TleFetchState) (norad_id : Int) : TleFetchState :=
  match cacheLookupCatnr st.cacheCatnr norad_id with
  | some tle => { st with rows := st.rows ++ [{ tle with cache_hit := true }] }
  | none =>
    let st1 : TleFetchState := { st with requests := st.requests ++ [catnrUrl norad_id] }
    match http (catnrUrl norad_id) with
    | .error _ => st1
    | .ok resp =>
      if resp.status = 200 then
        if 3 ≤ (respLines resp).length then
          let tle := mkCatnrRow norad_id (respLines resp)
          { st1 with cacheCatnr := st1.cacheCatnr ++ [(norad_id, tle)],
                     rows := st1.rows ++ [tle] }
        else st1
      else st1

/-- The triple-parsing loop of the GROUP branch: for i in range(0, len(lines)-2, 3). -/
def parseGroupTriples : List String → List TleRow
  | nm :: l1 :: l2 :: rest =>
    { name := nm, norad_id := pyInt? (strSlice l1 2 7),
      tle_line1 := l1, tle_line2 := l2, epoch_utc := tleEpochFromLine1 l1,
      provider := "celestrak", lookup_method := "group", cache_hit := false }
      :: parseGroupTriples rest
  | _ => []

/-- One iteration of the GROUP loop of load_tle_snapshot: serve from cache, else make
exactly one HTTP request; failures are silently skipped. -/
def fetchGroupStep (http : String → Except Unit HttpResp)
    (st : TleFetchState) (g : String) : TleFetchState :=
  match (st.cacheGroup.find? (fun p => p.1 = g)).map (fun p => p.2) with
  | some tles => { st with rows := st.rows ++ tles.map (fun t => { t with cache_hit := true }) }
  | none =>
    let st1 : TleFetchState := { st with requests := st.requests ++ [groupUrl g] }
    match http (groupUrl g) with
    | .error _ => st1
    | .ok resp =>
      if resp.status = 200 then
        let tles := parseGroupTriples (respLines resp)
        { st1 with cacheGroup := st1.cacheGroup ++ [(g, tles)], rows := st1.rows ++ tles }
      else st1

/-- Embedding of load_tle_snapshot (sat_fetch_tle.py).  Total: every fallible
operation inside the source body sits under a try/except, so no exception reaches the
caller; the returned state carries the result rows and the exact list of HTTP
requests issued. -/
def load_tle_snapshot (http : String → Except Unit HttpResp)
    (st0 : TleFetchState) (sat_names_or_ids : List String) : TleFetchState :=
  let parsed := parseIdsGroups sat_names_or_ids
  let st1 := parsed.1.foldl (fetchCatnrStep http) st0
  parsed.2.foldl (fetchGroupStep http) st1

/-- The empty fetch state (fresh process: empty caches, nothing accumulated). -/
def emptyTleState : TleFetchState := ⟨[], [], [], []⟩

/-- An HTTP oracle representing total provider outage: every request fails. -/
def httpAlwaysDown : String → Except Unit HttpResp := fun _ => .error ()

/- ===================== sat_compute_groundtrack.py ===================== -/

/-- The next-pass marker dict returned by find_next_pass_marker; its keys are
time_utc / lat_dd / lon_dd / elevation_max_deg. -/
structure PassMarker where
  time_utc : Rat
  lat_dd : Rat
  lon_dd : Rat
  elevation_max_deg : Rat
  deriving Repr, DecidableEq

/-- Environment of the satellite pipeline.  fs backs load_sat_reference; fetchTle is
the per-run behaviour of load_tle_snapshot as seen by the pipeline (network plus
module caches act as one stable mapping within a run; the network layer itself is
embedded separately as load_tle_snapshot).  The skyfield float kernels enter as
opaque functions of the TLE lines and the time: makeSatFails models the ValueError
raised by _make_sat on a malformed TLE, skyFailsAt a propagation failure of sat.at
at a given instant, skySub* the raw subpoint (latitude, raw longitude in degrees,
altitude km), elevDeg the observer-relative elevation.  haversineKm and horizonEval
are the float evaluations of _haversine_km and horizon_radius_km (none = NaN).
now_utc is the wall clock, which the pipeline never reads.  The remaining fields
model the RDS_SAT_* environment variables read by build_sat_overlay_df. -/
structure SatEnv where
  fs : Fs
  fetchTle : List String → List TleRow
  makeSatFails : String → String → Bool
  skyFailsAt : String → String → Rat → Bool
  skySubLat : String → String → Rat → Rat
  skySubLonRaw : String → String → Rat → Rat
  skySubAlt : String → String → Rat → Rat
  elevDeg : String → String → Rat × Rat → Rat → Rat
  haversineKm : Rat → Rat → Rat → Rat → Rat
  horizonEval : Rat → Option Rat
  now_utc : Rat
  show_all_visible : Bool
  topn_nearby : Nat
  topn_upcoming : Nat
  max_candidates : Nat
  max_hours_env : Rat

/-- Embedding of compute_subpoint_at: build the satellite (ValueError on a malformed
TLE), propagate (may fail), and wrap the subpoint longitude into [-180,180). -/
def compute_subpoint_at (env : SatEnv) (l1 l2 : String) (t : Rat) :
    Except PyErr (Rat × Rat × Rat) :=
  if env.makeSatFails l1 l2 then .error .valueError
  else if env.skyFailsAt l1 l2 t then .error .valueError
  else .ok (env.skySubLat l1 l2 t, wrap180 (env.skySubLonRaw l1 l2 t), env.skySubAlt l1 l2 t)

/-- The phase correction np.unwrap applies to one raw difference d (working in
degrees; np.unwrap adds multiples of the period, 360°): zero when |d| is below the
default discontinuity of half a period, else the wrapped difference minus d, with
numpy's boundary fix mapping a wrapped difference of exactly -180 to +180 when d > 0. -/
def unwrapCorr (d : Rat) : Rat :=
  if |d| < 180 then 0
  else (if wrap180 d = -180 ∧ 0 < d then 180 else wrap180 d) - d

/-- Tail of np.unwrap: each element is shifted by the accumulated correction. -/
def unwrapGo (prev acc : Rat) : List Rat → List Rat
  | [] => []
  | x :: xs => (x + (acc + unwrapCorr (x - prev))) :: unwrapGo x (acc + unwrapCorr (x - prev)) xs

/-- np.unwrap on a degree sequence (the source converts to radians, unwraps with
period 2π and converts back; in exact arithmetic this is unwrapping with period 360°). -/
def npUnwrapDeg : List Rat → List Rat
  | [] => []
  | x :: xs => x :: unwrapGo x 0 xs

/-- Sample instants of compute_short_track: center_utc + k*step_s for
k < forward_min*60 // step_s + 1. -/
def trackTimes (center_utc : Rat) (forward_min step_s : Nat) : List Rat :=
  (List.range (forward_min * 60 / step_s + 1)).map (fun k => center_utc + ((k * step_s : Nat) : Rat))

/-- Embedding of compute_short_track: sample the subpoint over the forward window,
unwrap the raw longitudes, then re-wrap each point independently into [-180,180);
returns ([lon,lat] pairs, start, end).  A propagation failure anywhere in the
vectorised sat.at call raises out of this function (the caller wraps it). -/
def compute_short_track (env : SatEnv) (l1 l2 : String) (center_utc : Rat)
    (forward_min step_s : Nat) : Except PyErr (List (Rat × Rat) × Rat × Rat) :=
  if env.makeSatFails l1 l2 then .error .valueError
  else if (trackTimes center_utc forward_min step_s).any (fun t => env.skyFailsAt l1 l2 t) then
    .error .valueError
  else
    let times := trackTimes center_utc forward_min step_s
    let lats := times.map (env.skySubLat l1 l2)
    let lons := times.map (env.skySubLonRaw l1 l2)
    let lons_wrapped := (npUnwrapDeg lons).map wrap180
    .ok (lons_wrapped.zip lats, center_utc,
         center_utc + (((forward_min * 60 / step_s) * step_s : Nat) : Rat))

/-- Number of elevation samples of find_next_pass_marker:
int(max_hours * 3600 // 60) (negative horizons give an empty range). -/
def passSampleCount (max_hours : Rat) : Nat := (Rat.floor (max_hours * 3600 / 60)).toNat

/-- Elevation sample i of find_next_pass_marker: observer-relative elevation at
start_utc + 60*i. -/
def passElevSample (env : SatEnv) (l1 l2 : String) (obs : Rat × Rat)
    (start_utc : Rat) (i : Nat) : Rat :=
  env.elevDeg l1 l2 obs (start_utc + 60 * (i : Rat))

/-- The sample instants of find_next_pass_marker. -/
def passTimes (start_utc : Rat) (n : Nat) : List Rat :=
  (List.range n).map (fun k : Nat => start_utc + 60 * (k : Rat))

/-- The block-extension loop of find_next_pass_marker: walk the positive-elevation
index list in order, extending while indices stay contiguous, stopping at the first
gap. -/
def extendBlockRun (above : List Nat) (last : Nat) : Nat :=
  match above with
  | [] => last
  | idx :: rest => if idx = last + 1 then extendBlockRun rest idx else last

/-- Embedding of find_next_pass_marker: sample elevation at a fixed 60 s step across
max_hours, find the first index with elevation > 0, extend the contiguous block,
take the argmax of elevation within that single block, and report the time,
subpoint and maximum elevation there; none when no sample is positive. -/
def find_next_pass_marker (env : SatEnv) (l1 l2 : String) (alert_latlon : Rat × Rat)
    (start_utc : Rat) (max_hours : Rat) : Except PyErr (Option PassMarker) :=
  if env.makeSatFails l1 l2 then .error .valueError
  else
    let n := passSampleCount max_hours
    if (passTimes start_utc n).any (fun t => env.skyFailsAt l1 l2 t) then .error .valueError
    else
      let e := passElevSample env l1 l2 alert_latlon start_utc
      match (List.range n).filter (fun i => 0 < e i) with
      | [] => .ok none
      | first :: rest =>
        let last := extendBlockRun rest first
        let max_idx := first + argmaxList ((List.range (last + 1 - first)).map (fun j => e (first + j)))
        let t_max := start_utc + 60 * (max_idx : Rat)
        if env.skyFailsAt l1 l2 t_max then .error .valueError
        else .ok (some
          { time_utc := t_max,
            lat_dd := env.skySubLat l1 l2 t_max,
            lon_dd := wrap180 (env.skySubLonRaw l1 l2 t_max),
            elevation_max_deg := e max_idx })

/- ===================== sat_pipeline.py ===================== -/

/- sat_pipeline.py is not embedded because the module does not parse.  Inside
build_sat_overlay_df, the try opened at line 177 (indent 4) has its suite at
indent 8 (lines 178-186), but lines 188-192 return to indent 4 as plain
statements before any except or finally clause at that indent appears (the
except clause arrives only at line 193).  Python requires the first line at
the indent of the try after its suite to be an except or finally clause, so
importing the module raises SyntaxError (expected except or finally block) at
parse time, and neither build_sat_overlay_df nor its helpers
(_visible_candidates, _upcoming_passes, _fallback_nearest_leo) ever exists at
runtime.  There are no executable semantics of this module to embed. -/


/- ===================== shared numeric lemmas ===================== -/

/-- Upper quadratic estimate for cosine from the Taylor bound. -/
lemma cos_upper_est (x : ℝ) (hx : |x| ≤ 1) :
    Real.cos x ≤ 1 - x ^ 2 / 2 + |x| ^ 4 * (5 / 96) := by
  have h := abs_le.mp (Real.cos_bound hx)
  linarith [h.2]

/-- Lower quadratic estimate for cosine from the Taylor bound. -/
lemma cos_lower_est (x : ℝ) (hx : |x| ≤ 1) :
    1 - x ^ 2 / 2 - |x| ^ 4 * (5 / 96) ≤ Real.cos x := by
  have h := abs_le.mp (Real.cos_bound hx)
  linarith [h.1]

/-- Numeric bracketing of arccos(6371/7221), the central horizon angle at 850 km. -/
lemma arccos_ratio_bounds :
    (479 / 1000 : ℝ) < Real.arccos (6371 / 7221) ∧
    Real.arccos (6371 / 7221) < 492 / 1000 := by
  have hc1 : (-1 : ℝ) ≤ 6371 / 7221 := by norm_num
  have hc2 : (6371 / 7221 : ℝ) ≤ 1 := by norm_num
  have hpi : (3 : ℝ) < Real.pi := Real.pi_gt_three
  have hmem : Real.arccos (6371 / 7221) ∈ Set.Icc 0 Real.pi :=
    ⟨Real.arccos_nonneg _, Real.arccos_le_pi _⟩
  have hmem1 : (479 / 1000 : ℝ) ∈ Set.Icc 0 Real.pi := ⟨by norm_num, by linarith⟩
  have hmem2 : (492 / 1000 : ℝ) ∈ Set.Icc 0 Real.pi := ⟨by norm_num, by linarith⟩
  have hca : Real.cos (Real.arccos (6371 / 7221)) = 6371 / 7221 := Real.cos_arccos hc1 hc2
  constructor
  · have habs : |(479 / 1000 : ℝ)| = 479 / 1000 := abs_of_pos (by norm_num)
    have hlow0 := cos_lower_est (479 / 1000) (by rw [habs]; norm_num)
    rw [habs] at hlow0
    have hlow : (6371 / 7221 : ℝ) < Real.cos (479 / 1000) := by nlinarith [hlow0]
    exact (Real.strictAntiOn_cos.lt_iff_lt hmem hmem1).mp (by rw [hca]; exact hlow)
  · have habs : |(492 / 1000 : ℝ)| = 492 / 1000 := abs_of_pos (by norm_num)
    have hup0 := cos_upper_est (492 / 1000) (by rw [habs]; norm_num)
    rw [habs] at hup0
    have hup : Real.cos (492 / 1000) < 6371 / 7221 := by nlinarith [hup0]
    exact (Real.strictAntiOn_cos.lt_iff_lt hmem2 hmem).mp (by rw [hca]; exact hup)

/-- Evaluation of the horizon radius at 850 km. -/
lemma horizon_at_850 :
    horizon_radius_km (some 850) = some (RE_KM * Real.arccos (RE_KM / (RE_KM + 850))) := by
  simp only [horizon_radius_km]
  rw [if_neg (by norm_num)]

/-- Numeric bracketing of the horizon radius at 850 km: it lies in (3050, 3135) km. -/
lemma horizon850_bounds :
    ∀ r : ℝ, horizon_radius_km (some 850) = some r → 3050 < r ∧ r < 3135 := by
  intro r hr
  rw [horizon_at_850] at hr
  injection hr with hr
  subst hr
  have hb := arccos_ratio_bounds
  have hq : RE_KM / (RE_KM + 850) = (6371 : ℝ) / 7221 := by unfold RE_KM; norm_num
  rw [hq]
  unfold RE_KM
  constructor
  · nlinarith [hb.1]
  · nlinarith [hb.2]

/- ===================== Claim C4 ===================== -/

/-- C4 counterexample: the spec's scenario says altitude 850 km gives a horizon
radius of approximately 2570 km, but the formula the code implements gives a value
above 3050 km (about 3122 km), more than 400 km away from 2570. -/
theorem c4_scenario_counterexample :
    3050 < (horizon_radius_km (some 850)).getD 0 ∧
    400 < |(horizon_radius_km (some 850)).getD 0 - 2570| := by
  have hb := horizon850_bounds _ horizon_at_850
  rw [horizon_at_850]
  simp only [Option.getD_some]
  refine ⟨hb.1, ?_⟩
  rw [abs_of_pos (by linarith [hb.1])]
  linarith [hb.1]

/-- C4 (amended): for every finite altitude h > 0, horizon_radius_km h equals
6371 * arccos(6371 / (6371 + h)) km; for altitude <= 0 or non-finite input it
returns NaN; and altitude 850 km yields a horizon radius strictly between 3050 and
3135 km (approximately 3122 km), not approximately 2570 km. -/
theorem c4_horizon_radius_formula_amended (h : ℝ) :
    (0 < h → horizon_radius_km (some h) = some (6371 * Real.arccos (6371 / (6371 + h)))) ∧
    (h ≤ 0 → horizon_radius_km (some h) = none) ∧
    horizon_radius_km none = none ∧
    (∀ r : ℝ, horizon_radius_km (some 850) = some r → 3050 < r ∧ r < 3135) := by
  refine ⟨?_, ?_, rfl, horizon850_bounds⟩
  · intro hpos
    simp only [horizon_radius_km, RE_KM]
    rw [if_neg (by linarith)]
  · intro hneg
    simp only [horizon_radius_km]
    rw [if_pos hneg]

/-- C4 witness: the amended theorem applied at the concrete altitude 850 km. -/
theorem c4_amended_witness :
    (0 : ℝ) < 850 ∧
    horizon_radius_km (some 850) = some (6371 * Real.arccos (6371 / (6371 + 850))) :=
  ⟨by norm_num, (c4_horizon_radius_formula_amended 850).1 (by norm_num)⟩

/- ===================== Claim C5 ===================== -/

/-- Filesystem state with no baseline CSV anywhere: every read raises
FileNotFoundError. -/
def fsMissingBaseline : Fs :=
  { baselineAbsExists := false,
    readAbsUtf8 := .error .fileNotFound, readAbsCp1252 := .error .fileNotFound,
    readRelUtf8 := .error .fileNotFound, readRelCp1252 := .error .fileNotFound }

/-- C5 counterexample: with the backing source missing, load_sat_reference raises
FileNotFoundError to its caller instead of seeding and returning the built-in
default set. -/
theorem c5_missing_file_counterexample :
    load_sat_reference fsMissingBaseline = .error .fileNotFound := rfl

/-- C5 (amended): load_sat_reference reads the baseline CSV (absolute path if it
exists, else the relative path, retrying with cp1252 on a unicode error) and can
throw: a read failure propagates, and a missing required column raises ValueError;
only a successful read with all required columns returns rows.  The built-in default
seeding helper exists but load_sat_reference never invokes it, and the schema that
helper writes lacks the loader's required columns anyway. -/
theorem c5_load_sat_reference_amended (fs : Fs) :
    (∀ e, baselineRead fs = .error e → load_sat_reference fs = .error e) ∧
    (∀ csv, baselineRead fs = .ok csv →
      REQUIRED_BASELINE_COLS.all (fun c => csv.cols.contains c) = false →
      load_sat_reference fs = .error .valueError) ∧
    (∀ csv, baselineRead fs = .ok csv →
      REQUIRED_BASELINE_COLS.all (fun c => csv.cols.contains c) = true →
      load_sat_reference fs = .ok csv.rows) ∧
    REQUIRED_BASELINE_COLS.all (fun c => create_default_sat_reference_csv.1.contains c) = false := by
  refine ⟨?_, ?_, ?_, by decide⟩
  · intro e he
    unfold load_sat_reference
    rw [he]
  · intro csv hc hcols
    unfold load_sat_reference
    rw [hc]
    dsimp only
    rw [if_neg (by rw [hcols]; exact Bool.false_ne_true)]
  · intro csv hc hcols
    unfold load_sat_reference
    rw [hc]
    dsimp only
    rw [if_pos hcols]

/-- A baseline catalog row used by concrete scenarios. -/
def catRowA : CatalogRow :=
  { type := "LEO", designator := "S7", common_name := "SATONE",
    norad_id := some 111, intl_designator := "98067A" }

/-- A well-formed baseline CSV. -/
def goodCsv : RawCsv := { cols := REQUIRED_BASELINE_COLS, rows := [catRowA] }

/-- Filesystem state whose absolute baseline CSV reads cleanly. -/
def fsGoodBaseline : Fs :=
  { baselineAbsExists := true,
    readAbsUtf8 := .ok goodCsv, readAbsCp1252 := .error .fileNotFound,
    readRelUtf8 := .error .fileNotFound, readRelCp1252 := .error .fileNotFound }

/-- C5 witness: the amended theorem applied to a concrete readable baseline. -/
theorem c5_amended_witness :
    baselineRead fsGoodBaseline = .ok goodCsv ∧
    load_sat_reference fsGoodBaseline = .ok goodCsv.rows :=
  ⟨rfl, (c5_load_sat_reference_amended fsGoodBaseline).2.2.1 goodCsv rfl
    (by decide)⟩

/- ===================== Claim C6 ===================== -/

/-- C6 counterexample: with the provider completely down, a lookup by catalog number
performs exactly one HTTP attempt against the single celestrak endpoint — not up to
3 attempts with increasing backoff and alternate endpoints — and returns an empty
result (without raising). -/
theorem c6_retry_counterexample :
    (load_tle_snapshot httpAlwaysDown emptyTleState ["99999"]).requests = [catnrUrl 99999] ∧
    (load_tle_snapshot httpAlwaysDown emptyTleState ["99999"]).requests.length = 1 ∧
    (load_tle_snapshot httpAlwaysDown emptyTleState ["99999"]).rows = [] := by
  refine ⟨?_, ?_, ?_⟩ <;> decide

/-- C6 (amended): for every lookup by catalog number or by group name not served from
the in-run cache, load_tle_snapshot performs exactly one HTTP attempt against the
single celestrak endpoint for that lookup — no retries, no backoff, no alternate
endpoints — and any network or parsing failure is absorbed (the function is total,
returning a possibly-empty row set). -/
theorem c6_tle_fetch_single_attempt_amended
    (http : String → Except Unit HttpResp) (st : TleFetchState)
    (s sg g : String) (n : Int)
    (hs : pyInt? s = some n)
    (hn : cacheLookupCatnr st.cacheCatnr n = none)
    (hreq : st.requests = [])
    (hsg : pyInt? sg = none) (hg : inferGroup sg = some g)
    (hcg : st.cacheGroup.find? (fun p => p.1 = g) = none) :
    (load_tle_snapshot http st [s]).requests = [catnrUrl n] ∧
    (load_tle_snapshot http st [sg]).requests = [groupUrl g] := by
  constructor
  · show (load_tle_snapshot http st [s]).requests = [catnrUrl n]
    unfold load_tle_snapshot
    simp only [parseIdsGroups, hs, List.foldl]
    unfold fetchCatnrStep
    rw [hn, hreq]
    cases http (catnrUrl n) with
    | error e => simp
    | ok resp =>
      by_cases h200 : resp.status = 200
      · by_cases hl : 3 ≤ (respLines resp).length
        · simp [h200, hl]
        · simp [h200, hl]
      · simp [h200]
  · show (load_tle_snapshot http st [sg]).requests = [groupUrl g]
    unfold load_tle_snapshot
    simp only [parseIdsGroups, hsg, hg, List.contains_nil, Bool.false_eq_true, if_false,
      List.foldl]
    unfold fetchGroupStep
    rw [hcg, hreq]
    cases http (groupUrl g) with
    | error e => simp
    | ok resp =>
      by_cases h200 : resp.status = 200
      · simp [h200]
      · simp [h200]

/-- An HTTP oracle that always answers 503 with an empty body. -/
def httpStub503 : String → Except Unit HttpResp := fun _ => .ok { status := 503, textLines := [] }

/-- C6 witness: the amended theorem applied to concrete lookups "99999" (catalog
number) and "E11" (galileo group) against a concrete failing endpoint. -/
theorem c6_amended_witness :
    pyInt? "99999" = some 99999 ∧ pyInt? "E11" = none ∧ inferGroup "E11" = some "galileo" ∧
    (load_tle_snapshot httpStub503 emptyTleState ["99999"]).requests = [catnrUrl 99999] ∧
    (load_tle_snapshot httpStub503 emptyTleState ["E11"]).requests = [groupUrl "galileo"] := by
  have h := c6_tle_fetch_single_attempt_amended httpStub503 emptyTleState "99999" "E11" "galileo"
    99999 (by decide) rfl rfl (by decide)
    (by decide) rfl
  exact ⟨by decide, by decide,
    by decide, h.1, h.2⟩

/- ===================== Claim C8 ===================== -/

/-- The floor used by the embedding agrees with Mathlib's floor on ℚ. -/
lemma ratFloor_eq (q : ℚ) : Rat.floor q = ⌊q⌋ := by
  symm
  rw [Int.floor_eq_iff]
  constructor
  · exact_mod_cast Rat.le_floor.mp le_rfl
  · by_contra h
    push_neg at h
    have : Rat.floor q + 1 ≤ Rat.floor q := Rat.le_floor.mpr (by exact_mod_cast h)
    omega

/-- wrap180 in terms of Mathlib's floor. -/
lemma wrap180_eq (x : Rat) : wrap180 x = (x + 180) - 360 * ((⌊(x + 180) / 360⌋ : Int) : Rat) - 180 := by
  unfold wrap180 pymod
  rw [ratFloor_eq]

/-- The wrap always lands in [-180, 180). -/
lemma wrap180_mem (x : Rat) : -180 ≤ wrap180 x ∧ wrap180 x < 180 := by
  rw [wrap180_eq]
  have hxy : x + 180 = 360 * ((x + 180) / 360) := by ring
  have h1 : ((⌊(x + 180) / 360⌋ : Int) : ℚ) ≤ (x + 180) / 360 := Int.floor_le _
  have h2 : (x + 180) / 360 < (⌊(x + 180) / 360⌋ : Int) + 1 := Int.lt_floor_add_one _
  constructor <;> nlinarith [h1, h2]

/-- Shifting by an integer multiple of 360 does not change the wrap. -/
lemma wrap180_add_int_mul (x : Rat) (k : Int) : wrap180 (x + 360 * (k : Rat)) = wrap180 x := by
  rw [wrap180_eq, wrap180_eq]
  have h : (x + 360 * (k : Rat) + 180) / 360 = (x + 180) / 360 + (k : Rat) := by ring
  rw [h]
  have h2 : ((x + 180) / 360 + (k : Rat)) = ((x + 180) / 360 + (k : Int)) := by push_cast; ring
  rw [h2, Int.floor_add_int]
  push_cast
  ring

/-- Every unwrap correction is an integer multiple of 360 degrees. -/
lemma unwrapCorr_is_int_mul (d : Rat) : ∃ k : Int, unwrapCorr d = 360 * (k : Rat) := by
  unfold unwrapCorr
  by_cases habs : |d| < 180
  · exact ⟨0, by rw [if_pos habs]; norm_num⟩
  · rw [if_neg habs]
    by_cases hedge : wrap180 d = -180 ∧ 0 < d
    · rw [if_pos hedge]
      refine ⟨1 - ⌊(d + 180) / 360⌋, ?_⟩
      have h := hedge.1
      rw [wrap180_eq] at h
      push_cast
      linarith [h]
    · rw [if_neg hedge]
      refine ⟨-⌊(d + 180) / 360⌋, ?_⟩
      rw [wrap180_eq]
      push_cast
      ring

/-- Rewrapping after the unwrap tail gives back the pointwise wrap. -/
lemma unwrapGo_wrap (xs : List Rat) : ∀ (prev acc : Rat), (∃ k : Int, acc = 360 * (k : Rat)) →
    (unwrapGo prev acc xs).map wrap180 = xs.map wrap180 := by
  induction xs with
  | nil => intro prev acc _; rfl
  | cons x xs ih =>
    intro prev acc h
    obtain ⟨k, hk⟩ := h
    obtain ⟨k2, hk2⟩ := unwrapCorr_is_int_mul (x - prev)
    simp only [unwrapGo, List.map_cons]
    have hhead : wrap180 (x + (acc + unwrapCorr (x - prev))) = wrap180 x := by
      have : x + (acc + unwrapCorr (x - prev)) = x + 360 * ((k + k2 : Int) : Rat) := by
        rw [hk, hk2]; push_cast; ring
      rw [this, wrap180_add_int_mul]
    rw [hhead, ih x (acc + unwrapCorr (x - prev)) ⟨k + k2, by rw [hk, hk2]; push_cast; ring⟩]

/-- The unwrap/rewrap round trip of compute_short_track equals the pointwise wrap:
np.unwrap only adds multiples of 360°, which the per-point rewrap cancels. -/
lemma npUnwrapDeg_wrap (xs : List Rat) : (npUnwrapDeg xs).map wrap180 = xs.map wrap180 := by
  cases xs with
  | nil => rfl
  | cons x xs =>
    simp only [npUnwrapDeg, List.map_cons]
    rw [unwrapGo_wrap xs x 0 ⟨0, by norm_num⟩]

/-- The unwrap tail preserves length. -/
lemma unwrapGo_length (xs : List Rat) : ∀ prev acc, (unwrapGo prev acc xs).length = xs.length := by
  induction xs with
  | nil => intro _ _; rfl
  | cons x xs ih => intro prev acc; simp only [unwrapGo, List.length_cons, ih]

/-- np.unwrap preserves length. -/
lemma npUnwrapDeg_length (xs : List Rat) : (npUnwrapDeg xs).length = xs.length := by
  cases xs with
  | nil => rfl
  | cons x xs => simp only [npUnwrapDeg, List.length_cons, unwrapGo_length]

/-- Environment for the antimeridian scenario: the raw ground track moves from
longitude 179° (at t = 0) to -179° = 181° (at t = 60), crossing the antimeridian. -/
def cexC8Env : SatEnv :=
  { fs := fsMissingBaseline, fetchTle := fun _ => [],
    makeSatFails := fun _ _ => false, skyFailsAt := fun _ _ _ => false,
    skySubLat := fun _ _ _ => 0,
    skySubLonRaw := fun _ _ t => if t = 0 then 179 else -179,
    skySubAlt := fun _ _ _ => 700,
    elevDeg := fun _ _ _ _ => 0,
    haversineKm := fun _ _ _ _ => 0, horizonEval := fun _ => none,
    now_utc := 0, show_all_visible := false, topn_nearby := 6, topn_upcoming := 4,
    max_candidates := 256, max_hours_env := 12 }

/-- C8 counterexample: a track whose raw (unwrapped) longitudes are [179, 181] —
crossing the antimeridian between the samples — comes out of compute_short_track as
[179, -179]: the consecutive output pair differs by 358° > 180°, because the
pointwise rewrap undoes the unwrap. -/
theorem c8_antimeridian_counterexample :
    compute_short_track cexC8Env "L1" "L2" 0 1 60 =
      .ok ([((179 : Rat), (0 : Rat)), (-179, 0)], 0, 60) ∧
    npUnwrapDeg [(179 : Rat), -179] = [179, 181] ∧
    (179 : Rat) < 180 ∧ (180 : Rat) < 181 ∧
    |(-179 : Rat) - 179| = 358 ∧ (180 : Rat) < 358 := by
  refine ⟨by decide, by decide, by decide, by decide, by decide, by decide⟩

/-- C8 (amended): for every element set and sampling window, the ground track
returned by compute_short_track carries longitudes equal to the pointwise wrap of
the raw longitudes into [-180, 180) — the unwrap followed by independent per-point
rewrap is the identity on wrapped values, so an antimeridian crossing does produce
a consecutive output pair differing by more than 180° (no de-jumping occurs). -/
theorem c8_unwrap_rewrap_amended (env : SatEnv) (l1 l2 : String) (center_utc : Rat)
    (forward_min step_s : Nat)
    (hmk : env.makeSatFails l1 l2 = false)
    (hsky : ∀ t : Rat, env.skyFailsAt l1 l2 t = false) :
    ∃ coords : List (Rat × Rat),
      compute_short_track env l1 l2 center_utc forward_min step_s =
        .ok (coords, center_utc, center_utc + (((forward_min * 60 / step_s) * step_s : Nat) : Rat)) ∧
      coords.map Prod.fst =
        (trackTimes center_utc forward_min step_s).map
          (fun t => wrap180 (env.skySubLonRaw l1 l2 t)) ∧
      ∀ p ∈ coords, -180 ≤ p.1 ∧ p.1 < 180 := by
  have hany : (trackTimes center_utc forward_min step_s).any
      (fun t => env.skyFailsAt l1 l2 t) = false := by
    rw [List.any_eq_false]
    intro t _
    simp [hsky t]
  refine ⟨((npUnwrapDeg ((trackTimes center_utc forward_min step_s).map
      (env.skySubLonRaw l1 l2))).map wrap180).zip
      ((trackTimes center_utc forward_min step_s).map (env.skySubLat l1 l2)), ?_, ?_, ?_⟩
  · unfold compute_short_track
    rw [hmk, hany]
    simp
  · rw [List.map_fst_zip, npUnwrapDeg_wrap, List.map_map]
    rfl
    · rw [List.length_map, npUnwrapDeg_length]
      simp
  · intro p hp
    have h1 := (List.of_mem_zip hp).1
    rw [npUnwrapDeg_wrap] at h1
    obtain ⟨x, _, hx⟩ := List.mem_map.mp h1
    rw [← hx]
    exact wrap180_mem x

/-- C8 witness: the amended theorem at the concrete antimeridian-crossing
environment. -/
theorem c8_amended_witness :
    cexC8Env.makeSatFails "L1" "L2" = false ∧
    (∃ coords : List (Rat × Rat),
      compute_short_track cexC8Env "L1" "L2" 0 1 60 =
        .ok (coords, 0, 0 + (((1 * 60 / 60) * 60 : Nat) : Rat)) ∧
      coords.map Prod.fst =
        (trackTimes 0 1 60).map (fun t => wrap180 (cexC8Env.skySubLonRaw "L1" "L2" t)) ∧
      ∀ p ∈ coords, -180 ≤ p.1 ∧ p.1 < 180) :=
  ⟨rfl, c8_unwrap_rewrap_amended cexC8Env "L1" "L2" 0 1 60 rfl (fun _ => rfl)⟩

/- ===================== Claim C2 ===================== -/

/-- getD of a mapped range evaluates the function. -/
lemma getD_map_range (f : Nat → Rat) (m : Nat) : ∀ (r : Nat), r < m →
    ((List.range m).map f).getD r 0 = f r := by
  induction m generalizing f with
  | zero => intro r hr; omega
  | succ m ih =>
    intro r hr
    rw [List.range_succ_eq_map]
    cases r with
    | zero => rfl
    | succ r =>
      simp only [List.map_cons, List.getD_cons_succ, List.map_map]
      have h := ih (fun j => f (j + 1)) r (by omega)
      simpa [Function.comp, Nat.succ_eq_add_one] using h

/-- Specification of the argmax accumulator loop: either the seed wins (everything
below the seed value) or the result points into the list at a strict improvement
that dominates the whole list. -/
lemma argmaxAux_spec (l : List Rat) : ∀ (i b : Nat) (v : Rat),
    (argmaxAux b v i l = b ∧ ∀ x ∈ l, x ≤ v) ∨
    (∃ j, j < l.length ∧ argmaxAux b v i l = i + j ∧ v < l.getD j 0 ∧
      ∀ x ∈ l, x ≤ l.getD j 0) := by
  induction l with
  | nil =>
    intro i b v
    left
    exact ⟨rfl, by simp⟩
  | cons x xs ih =>
    intro i b v
    by_cases h : v < x
    · rcases ih (i + 1) i x with ⟨h1, h2⟩ | ⟨j, hj, he, hv, hall⟩
      · right
        refine ⟨0, by simp, ?_, by simpa using h, ?_⟩
        · simp only [argmaxAux, if_pos h]
          rw [h1]
          omega
        · intro y hy
          rcases List.mem_cons.mp hy with rfl | hy
          · simp
          · simpa using h2 y hy
      · right
        refine ⟨j + 1, by simpa using hj, ?_, ?_, ?_⟩
        · simp only [argmaxAux, if_pos h]
          rw [he]
          omega
        · rw [List.getD_cons_succ]
          exact lt_trans h hv
        · intro y hy
          rw [List.getD_cons_succ]
          rcases List.mem_cons.mp hy with rfl | hy
          · exact le_of_lt hv
          · exact hall y hy
    · rcases ih (i + 1) b v with ⟨h1, h2⟩ | ⟨j, hj, he, hv, hall⟩
      · left
        refine ⟨?_, ?_⟩
        · simp only [argmaxAux, if_neg h]
          exact h1
        · intro y hy
          rcases List.mem_cons.mp hy with rfl | hy
          · exact not_lt.mp h
          · exact h2 y hy
      · right
        refine ⟨j + 1, by simpa using hj, ?_, ?_, ?_⟩
        · simp only [argmaxAux, if_neg h]
          rw [he]
          omega
        · rw [List.getD_cons_succ]
          exact hv
        · intro y hy
          rw [List.getD_cons_succ]
          rcases List.mem_cons.mp hy with rfl | hy
          · exact le_trans (not_lt.mp h) (le_of_lt hv)
          · exact hall y hy

/-- np.argmax on a nonempty list: in range and dominating every element. -/
lemma argmaxList_spec (l : List Rat) (hl : l ≠ []) :
    argmaxList l < l.length ∧ ∀ x ∈ l, x ≤ l.getD (argmaxList l) 0 := by
  cases l with
  | nil => exact absurd rfl hl
  | cons x xs =>
    simp only [argmaxList]
    rcases argmaxAux_spec xs 1 0 x with ⟨h1, h2⟩ | ⟨j, hj, he, hv, hall⟩
    · rw [h1]
      refine ⟨by simp, ?_⟩
      intro y hy
      rcases List.mem_cons.mp hy with rfl | hy
      · simp
      · simpa using h2 y hy
    · rw [he]
      have hget : (x :: xs).getD (1 + j) 0 = xs.getD j 0 := by
        rw [Nat.add_comm]
        exact List.getD_cons_succ
      refine ⟨by simp only [List.length_cons]; omega, ?_⟩
      intro y hy
      rw [hget]
      rcases List.mem_cons.mp hy with rfl | hy
      · exact le_of_lt hv
      · exact hall y hy

/-- The positive-elevation index list is strictly sorted. -/
lemma filter_range_sorted (p : Nat → Bool) (n : Nat) :
    List.Pairwise (· < ·) ((List.range n).filter p) :=
  (List.pairwise_lt_range n).filter p

/-- Specification of the block-extension loop over a strictly sorted index list
headed by first: the result bounds a contiguous run [first, last] inside the list,
and last + 1 is not in the list. -/
lemma extendBlockRun_spec (rest : List Nat) : ∀ (first : Nat),
    List.Pairwise (· < ·) (first :: rest) →
    first ≤ extendBlockRun rest first ∧
    (∀ k, first ≤ k → k ≤ extendBlockRun rest first → k ∈ first :: rest) ∧
    extendBlockRun rest first + 1 ∉ (first :: rest) := by
  induction rest with
  | nil =>
    intro first _
    refine ⟨le_refl _, ?_, ?_⟩
    · intro k h1 h2
      have hk : k = first := le_antisymm (by simpa [extendBlockRun] using h2) h1
      simp [hk]
    · simp [extendBlockRun]
  | cons idx rest ih =>
    intro first hp
    have hfi : first < idx := (List.pairwise_cons.mp hp).1 idx (by simp)
    have hp' : List.Pairwise (· < ·) (idx :: rest) := (List.pairwise_cons.mp hp).2
    by_cases h : idx = first + 1
    · obtain ⟨ih1, ih2, ih3⟩ := ih idx hp'
      have hrun : extendBlockRun (idx :: rest) first = extendBlockRun rest idx := by
        simp only [extendBlockRun, if_pos h]
      rw [hrun]
      refine ⟨by omega, ?_, ?_⟩
      · intro k h1 h2
        by_cases hk : k = first
        · simp [hk]
        · have : idx ≤ k := by omega
          have := ih2 k this h2
          simp only [List.mem_cons] at this ⊢
          tauto
      · intro hmem
        rcases List.mem_cons.mp hmem with heq | hmem2
        · omega
        · exact ih3 hmem2
    · have hrun : extendBlockRun (idx :: rest) first = first := by
        simp only [extendBlockRun, if_neg h]
      rw [hrun]
      have hrest : ∀ y ∈ rest, idx < y := (List.pairwise_cons.mp hp').1
      refine ⟨le_refl _, ?_, ?_⟩
      · intro k h1 h2
        have hk : k = first := le_antisymm h2 h1
        simp [hk]
      · intro hmem
        rcases List.mem_cons.mp hmem with heq | hmem2
        · omega
        · rcases List.mem_cons.mp hmem2 with heq2 | hmem3
          · omega
          · have := hrest _ hmem3
            omega

/-- Normal form of find_next_pass_marker when propagation never fails. -/
lemma find_next_pass_marker_eq (env : SatEnv) (l1 l2 : String) (obs : Rat × Rat)
    (start_utc max_hours : Rat)
    (hmk : env.makeSatFails l1 l2 = false)
    (hsky : ∀ t : Rat, env.skyFailsAt l1 l2 t = false) :
    find_next_pass_marker env l1 l2 obs start_utc max_hours =
      match (List.range (passSampleCount max_hours)).filter
          (fun i => decide (0 < passElevSample env l1 l2 obs start_utc i)) with
      | [] => .ok none
      | first :: rest =>
        .ok (some
          { time_utc := start_utc + 60 * ((first + argmaxList
              ((List.range (extendBlockRun rest first + 1 - first)).map
                (fun j => passElevSample env l1 l2 obs start_utc (first + j))) : Nat) : Rat),
            lat_dd := env.skySubLat l1 l2 (start_utc + 60 * ((first + argmaxList
              ((List.range (extendBlockRun rest first + 1 - first)).map
                (fun j => passElevSample env l1 l2 obs start_utc (first + j))) : Nat) : Rat)),
            lon_dd := wrap180 (env.skySubLonRaw l1 l2 (start_utc + 60 * ((first + argmaxList
              ((List.range (extendBlockRun rest first + 1 - first)).map
                (fun j => passElevSample env l1 l2 obs start_utc (first + j))) : Nat) : Rat))),
            elevation_max_deg := passElevSample env l1 l2 obs start_utc (first + argmaxList
              ((List.range (extendBlockRun rest first + 1 - first)).map
                (fun j => passElevSample env l1 l2 obs start_utc (first + j)))) }) := by
  unfold find_next_pass_marker
  have hany : (passTimes start_utc (passSampleCount max_hours)).any
      (fun t => env.skyFailsAt l1 l2 t) = false := by
    rw [List.any_eq_false]
    intro t _
    simp [hsky t]
  simp only [hmk, hany, Bool.false_eq_true, if_false]
  cases hfl : (List.range (passSampleCount max_hours)).filter
      (fun i => decide (0 < passElevSample env l1 l2 obs start_utc i)) with
  | nil => rfl
  | cons first rest => simp [hsky]

/-- C2: for every element set (whose propagation succeeds), observer location,
start time and horizon, find_next_pass_marker samples elevation at a fixed 60 s
step across max_hours; it returns none iff no sample has elevation > 0; otherwise
it selects the first contiguous block of positive-elevation samples (a pass already
in progress at the start counts, since every sample before the block is
non-positive) and returns the time, sub-satellite point and maximum elevation
within that single block — so the returned max elevation dominates every sample of
the block, in particular its first and last sample, and the first qualifying block
is reported even when a later pass reaches higher elevation. -/
theorem c2_find_next_pass_marker_first_block (env : SatEnv) (l1 l2 : String)
    (obs : Rat × Rat) (start_utc max_hours : Rat)
    (hmk : env.makeSatFails l1 l2 = false)
    (hsky : ∀ t : Rat, env.skyFailsAt l1 l2 t = false) :
    (find_next_pass_marker env l1 l2 obs start_utc max_hours = .ok none ↔
      ∀ i < passSampleCount max_hours, passElevSample env l1 l2 obs start_utc i ≤ 0) ∧
    (∀ m : PassMarker, find_next_pass_marker env l1 l2 obs start_utc max_hours = .ok (some m) →
      ∃ first last max_idx : Nat,
        first ≤ max_idx ∧ max_idx ≤ last ∧ last < passSampleCount max_hours ∧
        (∀ k < first, passElevSample env l1 l2 obs start_utc k ≤ 0) ∧
        (∀ k, first ≤ k → k ≤ last → 0 < passElevSample env l1 l2 obs start_utc k) ∧
        (last + 1 < passSampleCount max_hours →
          passElevSample env l1 l2 obs start_utc (last + 1) ≤ 0) ∧
        m.elevation_max_deg = passElevSample env l1 l2 obs start_utc max_idx ∧
        passElevSample env l1 l2 obs start_utc first ≤ m.elevation_max_deg ∧
        passElevSample env l1 l2 obs start_utc last ≤ m.elevation_max_deg ∧
        (∀ k, first ≤ k → k ≤ last →
          passElevSample env l1 l2 obs start_utc k ≤ m.elevation_max_deg) ∧
        m.time_utc = start_utc + 60 * (max_idx : Rat) ∧
        m.lat_dd = env.skySubLat l1 l2 m.time_utc ∧
        m.lon_dd = wrap180 (env.skySubLonRaw l1 l2 m.time_utc)) := by
  have heq := find_next_pass_marker_eq env l1 l2 obs start_utc max_hours hmk hsky
  set n := passSampleCount max_hours with hn
  set e := passElevSample env l1 l2 obs start_utc with he
  constructor
  · constructor
    · intro hres i hi
      by_contra hgt
      push_neg at hgt
      have hmem : i ∈ (List.range n).filter (fun i => decide (0 < e i)) := by
        rw [List.mem_filter, List.mem_range]
        exact ⟨hi, by simpa using hgt⟩
      rw [heq] at hres
      cases hfl : (List.range n).filter (fun i => decide (0 < e i)) with
      | nil => rw [hfl] at hmem; exact absurd hmem (List.not_mem_nil i)
      | cons first rest => rw [hfl] at hres; exact absurd hres (by simp)
    · intro hall
      rw [heq]
      have hfl : (List.range n).filter (fun i => decide (0 < e i)) = [] := by
        rw [List.filter_eq_nil_iff]
        intro a ha
        rw [List.mem_range] at ha
        simpa using not_lt.mpr (hall a ha)
      rw [hfl]
  · intro m hm
    rw [heq] at hm
    cases hfl : (List.range n).filter (fun i => decide (0 < e i)) with
    | nil => rw [hfl] at hm; exact absurd hm (by simp)
    | cons first rest =>
      rw [hfl] at hm
      have hm' := Option.some_inj.mp (Except.ok.inj hm)
      have hsorted : List.Pairwise (· < ·) (first :: rest) := by
        rw [← hfl]
        exact filter_range_sorted _ n
      have hmem : ∀ k, k ∈ first :: rest ↔ (k < n ∧ 0 < e k) := by
        intro k
        rw [← hfl, List.mem_filter, List.mem_range]
        simp
      obtain ⟨hble, hbmem, hbnot⟩ := extendBlockRun_spec rest first hsorted
      set last := extendBlockRun rest first with hlast
      set blockLen := last + 1 - first with hbl
      have hblpos : 0 < blockLen := by omega
      have hblock_ne : ((List.range blockLen).map (fun j => e (first + j))) ≠ [] := by
        simp only [ne_eq, List.map_eq_nil_iff, List.range_eq_nil]
        omega
      obtain ⟨harglt, hargmax⟩ := argmaxList_spec _ hblock_ne
      set a := argmaxList ((List.range blockLen).map (fun j => e (first + j))) with ha
      have halen : a < blockLen := by
        rw [List.length_map, List.length_range] at harglt
        exact harglt
      have hgetD : ((List.range blockLen).map (fun j => e (first + j))).getD a 0 = e (first + a) :=
        getD_map_range _ _ _ halen
      have hargmax' : ∀ k, first ≤ k → k ≤ last → e k ≤ e (first + a) := by
        intro k h1 h2
        have hmemk : e (first + (k - first)) ∈ (List.range blockLen).map (fun j => e (first + j)) := by
          rw [List.mem_map]
          refine ⟨k - first, ?_, rfl⟩
          rw [List.mem_range]
          omega
        have h3 := hargmax _ hmemk
        rw [hgetD] at h3
        have hkf : first + (k - first) = k := by omega
        rwa [hkf] at h3
      have hfirstn : first < n := ((hmem first).mp (by simp)).1
      have hlastn : last < n := ((hmem last).mp (hbmem last hble (le_refl _))).1
      refine ⟨first, last, first + a, by omega, by omega, hlastn, ?_, ?_, ?_, ?_, ?_, ?_, ?_, ?_, ?_, ?_⟩
      · intro k hk
        by_contra hgt
        push_neg at hgt
        have hkf : k ∈ first :: rest := (hmem k).mpr ⟨by omega, hgt⟩
        rcases List.mem_cons.mp hkf with rfl | hkr
        · omega
        · have := (List.pairwise_cons.mp hsorted).1 k hkr
          omega
      · intro k h1 h2
        exact ((hmem k).mp (hbmem k h1 h2)).2
      · intro hlt
        by_contra hgt
        push_neg at hgt
        exact hbnot ((hmem (last + 1)).mpr ⟨hlt, hgt⟩)
      · rw [← hm']
      · rw [← hm']
        exact hargmax' first (le_refl _) hble
      · rw [← hm']
        exact hargmax' last hble (le_refl _)
      · intro k h1 h2
        rw [← hm']
        exact hargmax' k h1 h2
      · rw [← hm']
      · rw [← hm']
      · rw [← hm']

/-- Environment for the concrete pass scenario: elevation samples at t = 0, 60, ...,
300 are -1, 2, 3, 1, -1, 9; the first positive block is indices 1..3 with its peak 3
at index 2, and the later higher peak 9 at index 5 is ignored. -/
def c2wEnv : SatEnv :=
  { fs := fsMissingBaseline, fetchTle := fun _ => [],
    makeSatFails := fun _ _ => false, skyFailsAt := fun _ _ _ => false,
    skySubLat := fun _ _ _ => 44, skySubLonRaw := fun _ _ _ => 33,
    skySubAlt := fun _ _ _ => 700,
    elevDeg := fun _ _ _ t =>
      if t = 60 then 2 else if t = 120 then 3 else if t = 180 then 1
      else if t = 300 then 9 else -1,
    haversineKm := fun _ _ _ _ => 0, horizonEval := fun _ => none,
    now_utc := 0, show_all_visible := false, topn_nearby := 6, topn_upcoming := 4,
    max_candidates := 256, max_hours_env := 12 }

/-- C2 witness: with a 0.1 h horizon (6 samples) the concrete environment yields the
marker of the first block (time 120 s, peak elevation 3), and the claim theorem
applies to it. -/
theorem c2_first_block_witness :
    c2wEnv.makeSatFails "L1" "L2" = false ∧
    find_next_pass_marker c2wEnv "L1" "L2" (10, 20) 0 (1/10) =
      .ok (some { time_utc := 120, lat_dd := 44, lon_dd := 33, elevation_max_deg := 3 }) ∧
    (find_next_pass_marker c2wEnv "L1" "L2" (10, 20) 0 (1/10) = .ok none ↔
      ∀ i < passSampleCount (1/10), passElevSample c2wEnv "L1" "L2" (10, 20) 0 i ≤ 0) :=
  ⟨rfl, by decide,
    (c2_find_next_pass_marker_first_block c2wEnv "L1" "L2" (10, 20) 0 (1/10) rfl
      (fun _ => rfl)).1⟩

/- ===================== Claim C10 ===================== -/

/-- C10: the epoch embedded in element line 1 (characters 19-32, i.e. [18:32]) is
parsed with a two-digit year mapped to 2000+yy when yy < 57 else 1900+yy, and the
timestamp is January 1 of that year (UTC) plus (fractional day-of-year - 1) days;
a parse failure leaves the epoch null while the element row is still produced, with
no exception raised (the fetch is a total function). -/
theorem c10_tle_epoch_parse :
    (∀ yy : Int, ∀ doy t : Rat, tleEpochCore yy doy = some t →
      t = 86400 * (((daysBeforeYear (if yy < 57 then 2000 + yy else 1900 + yy) : Int) : Rat) + (doy - 1))) ∧
    (∀ line1 : String, ∀ yy : Int, ∀ doy : Rat,
      pyInt? (strSlice (strSlice line1 18 32) 0 2) = some yy →
      pyFloat? (String.mk ((strSlice line1 18 32).toList.drop 2)) = some doy →
      tleEpochFromLine1 line1 = tleEpochCore yy doy) ∧
    (∀ (http : String → Except Unit HttpResp) (st : TleFetchState) (n : Int) (s : String)
        (resp : HttpResp) (nm l1 l2 : String),
      pyInt? s = some n → cacheLookupCatnr st.cacheCatnr n = none → st.rows = [] →
      http (catnrUrl n) = .ok resp → resp.status = 200 → respLines resp = [nm, l1, l2] →
      (load_tle_snapshot http st [s]).rows = [mkCatnrRow n [nm, l1, l2]] ∧
      (mkCatnrRow n [nm, l1, l2]).epoch_utc = tleEpochFromLine1 l1) := by
  refine ⟨?_, ?_, ?_⟩
  · intro yy doy t ht
    unfold tleEpochCore at ht
    by_cases hcond :
        (((daysBeforeYear (if yy < 57 then 2000 + yy else 1900 + yy) : Int) : Rat) + (doy - 1) < 0 ∨
          PY_DATETIME_MAX_DAYS ≤ ((daysBeforeYear (if yy < 57 then 2000 + yy else 1900 + yy) : Int) : Rat) + (doy - 1))
    · simp only [hcond, if_true] at ht
      exact absurd ht (by simp)
    · simp only [hcond, if_false] at ht
      exact (Option.some_inj.mp ht).symm
  · intro line1 yy doy h1 h2
    simp only [tleEpochFromLine1]
    rw [h1, h2]
  · intro http st n s resp nm l1 l2 hs hn hrows hresp h200 hlines
    constructor
    · unfold load_tle_snapshot
      simp only [parseIdsGroups, hs, List.foldl]
      unfold fetchCatnrStep
      rw [hn, hresp]
      simp [h200, hlines, hrows]
    · rfl

/-- A realistic element line 1 with epoch field "25001.25000000". -/
def tleLine1Ex : String := "1 25544U 98067A   25001.25000000  .00016717  00000-0  10270-3 0  9000"

/-- C10 witness: the parse theorem at a concrete line (epoch 2025, day 1.25, i.e.
2025-01-01T06:00Z) and at a concrete malformed line whose element row still carries
a null epoch. -/
theorem c10_epoch_witness :
    pyInt? (strSlice (strSlice tleLine1Ex 18 32) 0 2) = some 25 ∧
    pyFloat? (String.mk ((strSlice tleLine1Ex 18 32).toList.drop 2)) = some (5/4 : Rat) ∧
    tleEpochFromLine1 tleLine1Ex = tleEpochCore 25 (5/4) ∧
    tleEpochCore 25 (5/4) = some 63871308000 ∧
    (86400 : Rat) * (((daysBeforeYear 2025 : Int) : Rat) + ((5/4 : Rat) - 1)) = 63871308000 ∧
    tleEpochFromLine1 "1 GARBAGE" = none ∧
    (mkCatnrRow 25544 ["ISS (ZARYA)", "1 GARBAGE", "2 L2"]).epoch_utc = none := by
  have h1 : pyInt? (strSlice (strSlice tleLine1Ex 18 32) 0 2) = some 25 := by
    decide
  have h2 : pyFloat? (String.mk ((strSlice tleLine1Ex 18 32).toList.drop 2)) = some (5/4 : Rat) := by
    decide
  refine ⟨h1, h2, c10_tle_epoch_parse.2.1 tleLine1Ex 25 (5/4) h1 h2, ?_, ?_, ?_, ?_⟩
  · decide
  · decide
  · decide
  · decide

end RDS
